import Mathlib

/-!
Verification of the graph-to-text compilation engine of the fessonia
repository (src/lib/ffmpeg_command.js and src/lib/filter_chain.js) against
its natural-language specification.

JavaScript strings consumed by the filter-chain rendering layer are
modelled as their character sequences (`List Char`); strings that are only
stored and concatenated are modelled as Lean `String`.  JavaScript objects
are modelled as Lean structures with value semantics; methods that mutate
an object are modelled as functions returning the updated value; methods
that can throw are modelled with `Except String`.
-/

/-- Modelled from the spec: the render-time text of an FFmpegStreamSpecifier
(src/lib/ffmpeg_stream_specifier.js is not under src/).  FilterChain.toString
only consumes the specifier's string rendering, so the model carries that
text directly. -/
structure FFmpegStreamSpecifier where
  rendered : List Char
deriving DecidableEq, Repr

/-- Modelled from the spec: a FilterNode (src/lib/filter_node.js is not under
src/): a name, an ordered option map, declared input/output pad lists (the
"N" sentinel among the input pads marks unbounded arity, as tested by
FilterChain.validateInputs), and the pad-name stem that FilterChain.toString
reads from the chain's output node to build generated pad labels. -/
structure FilterNode where
  name : String
  options : List (String × String)
  inputs : List String
  outputs : List String
  padStem : String
deriving DecidableEq, Repr

/-- Modelled from the spec: FilterNode rendering, per spec section 4.1 the
node renders to the filter name, followed, when the option map is non-empty,
by "=" and the "key=value" pairs joined by ":" in insertion order. -/
def FilterNode.render (n : FilterNode) : List Char :=
  n.name.data ++
    (if n.options.isEmpty then []
     else '=' :: (List.intercalate [':']
       (n.options.map fun kv => kv.1.data ++ '=' :: kv.2.data)))

/-- A JavaScript value handed to FilterChain.addInputs: either an
FFmpegStreamSpecifier instance or some other value, for which the
source's instanceof test fails. -/
inductive JSVal where
  | specifier (s : FFmpegStreamSpecifier)
  | otherVal (txt : String)
deriving DecidableEq, Repr

/-- Result of the source's instanceof FFmpegStreamSpecifier test. -/
def JSVal.isSpecifier : JSVal → Bool
  | .specifier _ => true
  | .otherVal _ => false

/-- Extracts the specifier from a value known to be one. -/
def JSVal.asSpecifier : JSVal → Option FFmpegStreamSpecifier
  | .specifier s => some s
  | .otherVal _ => none

/-- FilterChain (src/lib/filter_chain.js constructor, lines 15-24): an
ordered node list together with the bound input stream specifiers, which
the constructor initializes to the empty list. -/
structure FilterChain where
  nodes : List FilterNode
  inputs : List FFmpegStreamSpecifier
deriving DecidableEq, Repr

/-- The FilterChain constructor (src/lib/filter_chain.js lines 15-24):
rejects an empty node array, otherwise stores the nodes and an empty input
list.  The element type check of the source is discharged by typing the
argument as a list of FilterNode. -/
def FilterChain.construct (nodes : List FilterNode) : Except String FilterChain :=
  if nodes.length < 1 then
    Except.error "Invalid parameter: nodes Array cannot be empty; it must have at least one FilterNode object"
  else
    Except.ok { nodes := nodes, inputs := [] }

/-- FilterChain.inputNode (source lines 68-70): the first node.  The source
constructor guarantees the node list is non-empty. -/
def FilterChain.inputNode (c : FilterChain) : Option FilterNode :=
  c.nodes.head?

/-- FilterChain.outputNode (source lines 76-78): the last node. -/
def FilterChain.outputNode (c : FilterChain) : Option FilterNode :=
  c.nodes.getLast?

/-- FilterChain.inputPads (source lines 84-86): the input pads of the first
node. -/
def FilterChain.inputPads (c : FilterChain) : List String :=
  (c.inputNode.map FilterNode.inputs).getD []

/-- FilterChain.outputPads (source lines 92-94): the output pads of the last
node. -/
def FilterChain.outputPads (c : FilterChain) : List String :=
  (c.outputNode.map FilterNode.outputs).getD []

/-- FilterChain.validateInputs (source lines 124-142): rejects non-specifier
elements; computes the needed count from the first node's input pads, the
unbounded flag from the "N" sentinel, and the provided count from already
bound plus newly supplied inputs; throws when a finite arity is exceeded.
The under-filled branch of the source calls logger.warn, but the module
never binds logger (unlike ffmpeg_command.js, filter_chain.js has no
config/logger require), so evaluating that call raises a ReferenceError,
modelled as an error result. -/
def FilterChain.validateInputs (c : FilterChain) (inputs : List JSVal) :
    Except String (List FFmpegStreamSpecifier) :=
  if inputs.any (fun i => ! i.isSpecifier) then
    Except.error "Invalid inputs specified: all inputs in Array must be FFmpegStreamSpecifier objects"
  else
    let inputsNeeded := c.inputPads.length
    let orMore := c.inputPads.any (fun p => p == "N")
    let inputsProvided := c.inputs.length + inputs.length
    if ! orMore && decide (inputsNeeded < inputsProvided) then
      Except.error ("Too many inputs specified: " ++ Nat.repr inputsNeeded ++ " inputs required")
    else if inputsNeeded > inputsProvided then
      Except.error "ReferenceError: logger is not defined"
    else
      Except.ok (inputs.filterMap JSVal.asSpecifier)

/-- FilterChain.addInputs (source lines 50-52): concatenates the validated
specifiers onto the bound-input list; a validation throw binds nothing. -/
def FilterChain.addInputs (c : FilterChain) (inputs : List JSVal) :
    Except String FilterChain :=
  (c.validateInputs inputs).map fun vs => { c with inputs := c.inputs ++ vs }

/-- FilterChain.addInput (source lines 60-62): delegates to addInputs with a
one-element array. -/
def FilterChain.addInput (c : FilterChain) (input : JSVal) :
    Except String FilterChain :=
  c.addInputs [input]

/-- The startsWith test of JavaScript strings, on the character-sequence
model. -/
def jsStartsWith (s pre : List Char) : Bool :=
  pre.isPrefixOf s

/-- The endsWith test of JavaScript strings, on the character-sequence
model. -/
def jsEndsWith (s post : List Char) : Bool :=
  post.isSuffixOf s

/-- The bracket-wrapping step applied to each bound input inside
FilterChain.toString (source lines 149-155): text already starting with the
opening bracket and ending with the closing bracket is kept unchanged,
anything else is wrapped in one pair of brackets. -/
def bracketWrap (str : List Char) : List Char :=
  if jsStartsWith str ['['] && jsEndsWith str [']'] then str
  else '[' :: str ++ [']']

/-- The inputs segment of FilterChain.toString (source lines 149-155): the
bracket-wrapped renderings of the bound inputs, joined with no separator. -/
def FilterChain.renderedInputs (c : FilterChain) : List Char :=
  (c.inputs.map fun i => bracketWrap i.rendered).flatten

/-- The filters segment of FilterChain.toString (source line 156): the node
renderings joined by commas. -/
def FilterChain.renderedFilters (c : FilterChain) : List Char :=
  List.intercalate [','] (c.nodes.map FilterNode.render)

/-- The outputs segment of FilterChain.toString (source line 157): for every
output pad, in order, a bracketed label built from the output node's pad
stem and the pad position. -/
def FilterChain.renderedOutputs (c : FilterChain) : List Char :=
  let stem := (c.outputNode.map FilterNode.padStem).getD ""
  (c.outputPads.enum.map fun p =>
    '[' :: stem.data ++ '_' :: (Nat.repr p.1).data ++ [']']).flatten

/-- FilterChain.toString (source lines 148-159): inputs segment, then
filters segment, then outputs segment. -/
def FilterChain.toString (c : FilterChain) : List Char :=
  c.renderedInputs ++ c.renderedFilters ++ c.renderedOutputs

/-- The argument of FilterChain.wrap: a FilterNode, a FilterChain, or some
other value, for which the source's instanceof FilterNode test fails. -/
inductive WrapArg where
  | node (n : FilterNode)
  | chain (c : FilterChain)
  | otherVal (txt : String)
deriving DecidableEq, Repr

/-- FilterChain.wrap (source lines 167-172): a FilterNode is wrapped in a
newly constructed one-node FilterChain, anything else is returned
unchanged. -/
def FilterChain.wrap : WrapArg → Except String WrapArg
  | .node n => (FilterChain.construct [n]).map WrapArg.chain
  | x => Except.ok x

/-- Modelled from the spec: an FFmpegInput (src/lib/ffmpeg_input.js is not
under src/): a source url, the opaque argument block its delegated
toCommandArray rendering produces, and the inputLabel attribute assigned by
FFmpegCommand.addInput. -/
structure FFmpegInput where
  url : String
  argBlock : List String
  inputLabel : Option Nat := none
deriving DecidableEq, Repr

/-- Modelled from the spec: an FFmpegOutput (src/lib/ffmpeg_output.js is not
under src/): a destination url and the opaque argument block its delegated
toCommandArray rendering produces. -/
structure FFmpegOutput where
  url : String
  argBlock : List String
deriving DecidableEq, Repr

/-- Modelled from the spec: a FilterGraph (src/lib/filter_graph.js is not
under src/) is an ordered collection of FilterChains. -/
structure FilterGraph where
  chains : List FilterChain
deriving DecidableEq, Repr

/-- Modelled from the spec: the shape of a FilterNode or FilterGraph
object used as a mapping source (src/lib/filter_node.js and
src/lib/filter_graph.js are not under src/): its generated output pad
names and the set of output pads already consumed by mapping requests.
In the source such an object never reaches the filter branch of
getMappingParameterValue, which is dead code (see below). -/
structure FilterSource where
  outputPadNames : List String
  mappedOutputPads : List Nat
deriving DecidableEq, Repr

/-- The fromObject argument of getMappingParameterValue: an FFmpegInput, a
filter object (a FilterNode or FilterGraph instance), or some other value.
The latter two are distinguished only for readability of statements: the
source treats every non-input argument identically, because the line-149
instanceof test itself raises before distinguishing them. -/
inductive MappingSource where
  | input (i : FFmpegInput)
  | filter (f : FilterSource)
  | otherVal (txt : String)
deriving DecidableEq, Repr

/-- The value returned by getMappingParameterValue: an index pair for an
input source, or the generated pad name that the dead filter branch of the
source would return. -/
inductive MappingParam where
  | pair (inputIndex streamIndex : Nat)
  | padName (name : String)
deriving DecidableEq, Repr

/-- FFmpegCommand (src/lib/ffmpeg_command.js constructor, lines 36-46):
global options in insertion order, the input, output and filter-graph
lists, and the keys of the connections map, which no code path under src/
ever populates. -/
structure FFmpegCommand where
  options : List (String × Option String)
  inputs : List FFmpegInput
  outputs : List FFmpegOutput
  filterGraphs : List FilterGraph
  connections : List String
deriving DecidableEq, Repr

/-- A freshly constructed FFmpegCommand holding the given validated global
options and empty lists (source lines 36-46). -/
def FFmpegCommand.create (options : List (String × Option String)) : FFmpegCommand :=
  { options := options, inputs := [], outputs := [], filterGraphs := [], connections := [] }

/-- FFmpegCommand.addInput (source lines 54-57): sets the input's inputLabel
to the current length of the input list, then appends it. -/
def FFmpegCommand.addInput (c : FFmpegCommand) (input : FFmpegInput) : FFmpegCommand :=
  { c with inputs := c.inputs ++ [{ input with inputLabel := some c.inputs.length }] }

/-- FFmpegCommand.addOutput (source lines 66-69) in its default
mappings-null form: appends the output. -/
def FFmpegCommand.addOutput (c : FFmpegCommand) (output : FFmpegOutput) : FFmpegCommand :=
  { c with outputs := c.outputs ++ [output] }

/-- FFmpegCommand.addFilterGraph (source lines 78-83) in its default
onOutput-null form: appends the filter graph. -/
def FFmpegCommand.addFilterGraph (c : FFmpegCommand) (graph : FilterGraph) : FFmpegCommand :=
  { c with filterGraphs := c.filterGraphs ++ [graph] }

/-- The JavaScript Array indexOf of an input in the command's input list,
with object identity modelled as structural equality: the first index at
which the input occurs, or none where the source yields -1. -/
def jsIndexOf (l : List FFmpegInput) (a : FFmpegInput) : Option Nat :=
  match l with
  | [] => none
  | b :: bs => if b = a then some 0 else (jsIndexOf bs a).map (· + 1)

/-- FFmpegCommand.getMappingParameterValue (source lines 141-157): an
FFmpegInput present in the command's inputs yields the pair of its position
and the stream index, and an absent FFmpegInput is an unknown-input error
(FFmpegInput is required by the module at line 11, so the first instanceof
test evaluates normally).  For every other argument, the line-149 test
fromObject instanceof FilterNode reads an identifier the module never
binds: ffmpeg_command.js requires only events, ./util/config,
child_process, ./ffmpeg_input and ./ffmpeg_output, and FilterNode and
FilterGraph appear only in JSDoc and at line 149.  Reading the undeclared
identifier raises a ReferenceError, so the pad-name read, the
markOutputPadMapped call (lines 150-153) and the unknown-type throw at
line 156 are dead code. -/
def FFmpegCommand.getMappingParameterValue (c : FFmpegCommand)
    (fromObject : MappingSource) (fromStreamIndex : Nat) :
    Except String (MappingParam × MappingSource) :=
  match fromObject with
  | .input i =>
    match jsIndexOf c.inputs i with
    | none => Except.error ("Unknown input file specified in output mapping: " ++ i.url)
    | some idx => Except.ok (.pair idx fromStreamIndex, .input i)
  | .filter _ => Except.error "ReferenceError: FilterNode is not defined"
  | .otherVal _ => Except.error "ReferenceError: FilterNode is not defined"

/-- Modelled from the spec: the configured ffmpeg binary name,
config.ffmpeg_bin (src/lib/util/config.js is not under src/). -/
def ffmpegBin : String := "ffmpeg"

/-- The command-and-arguments record returned by FFmpegCommand.toCommand
(source lines 171-198). -/
structure CommandResult where
  command : String
  args : List String
deriving DecidableEq, Repr

/-- FFmpegCommand.toCommand (source lines 171-198), in state-passing form to
record that the source performs no writes: global options rendered as a
dash-prefixed key followed by the value when it is neither null nor
undefined; then each input's argument block in order; then the
connections loop, whose body only logs (the source carries a TODO there)
and contributes no arguments; then each output's argument block in order. -/
def FFmpegCommand.toCommand (c : FFmpegCommand) : FFmpegCommand × CommandResult :=
  let optionArgs := c.options.foldl
    (fun args kv =>
      args ++ ["-" ++ kv.1] ++ (match kv.2 with | some v => [v] | none => [])) []
  let args := optionArgs
    ++ (c.inputs.map FFmpegInput.argBlock).flatten
    ++ (c.outputs.map FFmpegOutput.argBlock).flatten
  (c, { command := ffmpegBin, args := args })

/-- The per-argument quoting step of FFmpegCommand.toString (source line
208): arguments starting with a dash are kept, anything else is wrapped in
double quotes with inner double quotes escaped. -/
def quoteArg (elt : String) : String :=
  if elt.startsWith "-" then elt
  else "\"" ++ (elt.replace "\"" "\\\"") ++ "\""

/-- FFmpegCommand.toString (source lines 205-211), in state-passing form:
renders the command, quotes each argument, and joins everything with
spaces. -/
def FFmpegCommand.toString (c : FFmpegCommand) : FFmpegCommand × String :=
  let r := c.toCommand
  (r.1, r.2.command ++ " " ++ String.intercalate " " (r.2.args.map quoteArg))

/-- An operation performed on an FFmpegCommand while it is being built. -/
inductive CommandOp where
  | addInput (input : FFmpegInput)
  | addOutput (output : FFmpegOutput)
  | addFilterGraph (graph : FilterGraph)
deriving DecidableEq, Repr

/-- Applies one build operation to a command. -/
def FFmpegCommand.applyOp (c : FFmpegCommand) : CommandOp → FFmpegCommand
  | .addInput i => c.addInput i
  | .addOutput o => c.addOutput o
  | .addFilterGraph g => c.addFilterGraph g

/-- Applies a sequence of build operations in order. -/
def FFmpegCommand.applyOps (c : FFmpegCommand) (ops : List CommandOp) : FFmpegCommand :=
  ops.foldl FFmpegCommand.applyOp c

/-- Every input stored at position k of the command carries the label k. -/
def labelsAssigned (c : FFmpegCommand) : Prop :=
  ∀ k (h : k < c.inputs.length), (c.inputs.get ⟨k, h⟩).inputLabel = some k

/-- The edgedetect filter node of the spec's scenario: no options, one
input pad, one output pad, and the pad-name stem generated for the first
chain of a graph. -/
def edgedetectNode : FilterNode :=
  { name := "edgedetect", options := [], inputs := ["0"], outputs := ["0"],
    padStem := "chain0_edgedetect" }

/-- A one-node chain around the edgedetect node, with no bound inputs. -/
def edgedetectChain : FilterChain :=
  { nodes := [edgedetectNode], inputs := [] }

/-- A node whose first-node input arity is the finite number 2. -/
def overlayNode : FilterNode :=
  { name := "overlay", options := [], inputs := ["0", "1"], outputs := ["0"],
    padStem := "chain0_overlay" }

/-- A one-node chain around the two-input node, with no bound inputs. -/
def overlayChain : FilterChain :=
  { nodes := [overlayNode], inputs := [] }

/-- A node declaring unbounded input arity: its input pads carry the "N"
sentinel. -/
def amixNode : FilterNode :=
  { name := "amix", options := [], inputs := ["0", "N"], outputs := ["0"],
    padStem := "chain0_amix" }

/-- A one-node chain around the unbounded-arity node. -/
def amixChain : FilterChain :=
  { nodes := [amixNode], inputs := [] }

/-- A stream specifier rendering to unbracketed text. -/
def specZeroV : FFmpegStreamSpecifier := { rendered := "0:v".data }

/-- A second stream specifier rendering to unbracketed text. -/
def specZero : FFmpegStreamSpecifier := { rendered := "0".data }

/-- The clip.mov input of the spec's scenario, before insertion. -/
def clipInput : FFmpegInput := { url := "clip.mov", argBlock := ["-i", "clip.mov"] }

/-- The clip.mov input as stored by addInput on a fresh command: label 0. -/
def labeledClip : FFmpegInput :=
  { url := "clip.mov", argBlock := ["-i", "clip.mov"], inputLabel := some 0 }

/-- An input never added to any command. -/
def missingInput : FFmpegInput := { url := "other.mov", argBlock := ["-i", "other.mov"] }

/-- The output of the spec's scenario. -/
def outFile : FFmpegOutput := { url := "out.mp4", argBlock := ["out.mp4"] }

/-- The spec's scenario command: one input, one attached non-empty filter
graph holding the edgedetect chain, one output, no global options. -/
def scenarioCmd : FFmpegCommand :=
  (((FFmpegCommand.create []).addInput clipInput).addFilterGraph
    { chains := [edgedetectChain] }).addOutput outFile

/-- A command holding exactly the stored clip input. -/
def mapCmd : FFmpegCommand :=
  { FFmpegCommand.create [] with inputs := [labeledClip] }

/-- A one-pad filter mapping source with no pad consumed yet. -/
def freshPadSource : FilterSource :=
  { outputPadNames := ["[chain0_edgedetect_0]"], mappedOutputPads := [] }

/-- A four-operation build: two inputs interleaved with an output and a
filter graph. -/
def demoOps : List CommandOp :=
  [.addInput clipInput, .addOutput outFile,
   .addFilterGraph { chains := [edgedetectChain] }, .addInput missingInput]

deriving instance DecidableEq for Except

/-- Text already carrying both brackets is left unchanged by bracketWrap. -/
theorem bracketWrap_of_bracketed {t : List Char} (h1 : jsStartsWith t ['['] = true)
    (h2 : jsEndsWith t [']'] = true) : bracketWrap t = t := by
  simp [bracketWrap, h1, h2]

/-- Text of the form produced by wrapping starts with the opening bracket. -/
theorem jsStartsWith_bracket (t : List Char) : jsStartsWith ('[' :: t) ['['] = true := by
  simp [jsStartsWith, List.isPrefixOf]

/-- Text of the form produced by wrapping ends with the closing bracket. -/
theorem jsEndsWith_bracket (t : List Char) : jsEndsWith (t ++ [']']) [']'] = true := by
  simp [jsEndsWith, List.isSuffixOf, List.isPrefixOf, List.reverse_append]

/-- jsIndexOf yields no index for an element absent from the list. -/
theorem jsIndexOf_eq_none_of_not_mem {l : List FFmpegInput} {a : FFmpegInput}
    (h : a ∉ l) : jsIndexOf l a = none := by
  induction l with
  | nil => rfl
  | cons b bs ih =>
    have hba : ¬ b = a := fun e => h (e ▸ List.mem_cons_self b bs)
    have hbs : a ∉ bs := fun m => h (List.mem_cons_of_mem b m)
    simp [jsIndexOf, hba, ih hbs]

/-- jsIndexOf finds a position holding the element for any present
element. -/
theorem jsIndexOf_of_mem {l : List FFmpegInput} {a : FFmpegInput} (h : a ∈ l) :
    ∃ idx, jsIndexOf l a = some idx ∧ l[idx]? = some a := by
  induction l with
  | nil => cases h
  | cons b bs ih =>
    by_cases hba : b = a
    · exact ⟨0, by simp [jsIndexOf, hba], by simp [hba]⟩
    · have hm : a ∈ bs := by
        cases h with
        | head => exact absurd rfl hba
        | tail _ hmem => exact hmem
      obtain ⟨idx, h1, h2⟩ := ih hm
      exact ⟨idx + 1, by simp [jsIndexOf, hba, h1], by simpa using h2⟩

/-- Adding an input extends the label invariant: the new input receives the
previous length as its label and stored labels are untouched. -/
theorem labelsAssigned_addInput {c : FFmpegCommand} (h : labelsAssigned c)
    (i : FFmpegInput) : labelsAssigned (c.addInput i) := by
  intro k hk
  simp only [FFmpegCommand.addInput] at hk ⊢
  rw [List.get_eq_getElem]
  rcases Nat.lt_or_ge k c.inputs.length with hlt | hge
  · rw [List.getElem_append_left hlt]
    have hx := h k hlt
    rw [List.get_eq_getElem] at hx
    exact hx
  · have hk' : k = c.inputs.length := by
      simp only [List.length_append, List.length_cons, List.length_nil] at hk
      omega
    subst hk'
    rw [List.getElem_concat_length _ _ _ rfl]

/-- Every build operation preserves the label invariant. -/
theorem labelsAssigned_applyOp {c : FFmpegCommand} (h : labelsAssigned c) :
    ∀ op, labelsAssigned (c.applyOp op)
  | .addInput i => labelsAssigned_addInput h i
  | .addOutput _ => h
  | .addFilterGraph _ => h

/-- A sequence of build operations preserves the label invariant. -/
theorem labelsAssigned_applyOps {c : FFmpegCommand} (h : labelsAssigned c)
    (ops : List CommandOp) : labelsAssigned (c.applyOps ops) := by
  induction ops generalizing c with
  | nil => exact h
  | cons op ops ih => exact ih (labelsAssigned_applyOp h op)

/-- C1: evaluation of the code at the spec's scenario: although the command
carries a non-empty attached FilterGraph, toCommand renders only the global
options, the input argument blocks and the output argument blocks; no
-filter_complex and no -map argument appears anywhere in the list (the
source's connections loop is an unfinished TODO whose body only logs). -/
theorem toCommand_omits_filter_and_map_args :
    scenarioCmd.filterGraphs = [{ chains := [edgedetectChain] }] ∧
    (scenarioCmd.toCommand).2.args = ["-i", "clip.mov", "out.mp4"] ∧
    "-filter_complex" ∉ (scenarioCmd.toCommand).2.args ∧
    "-map" ∉ (scenarioCmd.toCommand).2.args := by decide

/-- C2: evaluation of the code at the failing input: a one-node edgedetect
chain with no bound inputs and no specifier ever requested still renders
with a bracketed generated pad name on its output side, not as the bare
comma-joined filter expression the claim requires. -/
theorem filterChain_toString_labels_outputs_unconditionally :
    edgedetectChain.inputs = [] ∧
    FilterChain.toString edgedetectChain = "edgedetect[chain0_edgedetect_0]".data ∧
    FilterChain.toString edgedetectChain ≠ "edgedetect".data := by decide

/-- C3: building a command from a fresh one by any sequence of addInput,
addOutput and addFilterGraph operations, the input stored at position k
carries label k, assigned at its insertion and untouched by every later
operation. -/
theorem addInput_assigns_stable_positional_labels
    (opts : List (String × Option String)) (ops : List CommandOp) (k : Nat)
    (h : k < ((FFmpegCommand.create opts).applyOps ops).inputs.length) :
    (((FFmpegCommand.create opts).applyOps ops).inputs.get ⟨k, h⟩).inputLabel = some k :=
  labelsAssigned_applyOps (fun _ hk => absurd hk (by simp [FFmpegCommand.create])) ops k h

/-- C3 witness: the theorem applied to a four-operation build at position
1, the second input added. -/
theorem addInput_assigns_stable_positional_labels_witness :
    (((FFmpegCommand.create []).applyOps demoOps).inputs.get ⟨1, by decide⟩).inputLabel = some 1 :=
  addInput_assigns_stable_positional_labels [] demoOps 1 (by decide)

/-- C4: evaluation of the code at the failing input: a mapping request from
a filter-side source never succeeds, because the line-149 instanceof guard
reads the identifier FilterNode, which ffmpeg_command.js never binds — even
the first request for a pad raises a ReferenceError, so no output pad is
ever marked consumed and the second-request mapping error the claim
specifies is unreachable. -/
theorem mapping_request_from_filter_source_raises (c : FFmpegCommand)
    (f : FilterSource) (i : Nat) :
    c.getMappingParameterValue (.filter f) i
      = Except.error "ReferenceError: FilterNode is not defined" := rfl

/-- C5: the input-anchored halves of the claim hold on the code — an input
present in the command's input list yields the pair of its position and
the stream index, and an absent input raises the unknown-input error — but
the unrecognized-source half fails: every non-input source raises the
unbound-identifier ReferenceError at the line-149 instanceof guard, and
the unknown-mapping-source throw at line 156 is dead code, so the claimed
fatal unknown-mapping-source error is never produced. -/
theorem getMappingParameterValue_unknown_type_unreachable (c : FFmpegCommand)
    (i : FFmpegInput) (n : Nat) (txt : String) :
    (i ∈ c.inputs → ∃ idx, c.inputs[idx]? = some i ∧
      c.getMappingParameterValue (.input i) n
        = Except.ok (.pair idx n, .input i)) ∧
    (i ∉ c.inputs → c.getMappingParameterValue (.input i) n
        = Except.error ("Unknown input file specified in output mapping: " ++ i.url)) ∧
    c.getMappingParameterValue (.otherVal txt) n
      = Except.error "ReferenceError: FilterNode is not defined" := by
  refine ⟨?_, ?_, rfl⟩
  · intro h
    obtain ⟨idx, h1, h2⟩ := jsIndexOf_of_mem h
    exact ⟨idx, h2, by simp [FFmpegCommand.getMappingParameterValue, h1]⟩
  · intro h
    simp [FFmpegCommand.getMappingParameterValue, jsIndexOf_eq_none_of_not_mem h]

/-- C5 witness: the theorem applied at a one-input command, at its stored
input, at an absent input, and at an unrecognized source value;
additionally, at that value the produced error differs from the
unknown-mapping-source message the claim requires. -/
theorem getMappingParameterValue_unknown_type_unreachable_witness :
    (∃ idx, mapCmd.inputs[idx]? = some labeledClip ∧
      mapCmd.getMappingParameterValue (.input labeledClip) 2
        = Except.ok (.pair idx 2, .input labeledClip)) ∧
    mapCmd.getMappingParameterValue (.input missingInput) 0
      = Except.error ("Unknown input file specified in output mapping: " ++ missingInput.url) ∧
    mapCmd.getMappingParameterValue (.otherVal "42") 1
      = Except.error "ReferenceError: FilterNode is not defined" ∧
    mapCmd.getMappingParameterValue (.otherVal "42") 1
      ≠ Except.error ("Unknown input type specified in output mapping: " ++ "42") :=
  ⟨(getMappingParameterValue_unknown_type_unreachable mapCmd labeledClip 2 "42").1 (by decide),
   (getMappingParameterValue_unknown_type_unreachable mapCmd missingInput 0 "42").2.1 (by decide),
   (getMappingParameterValue_unknown_type_unreachable mapCmd missingInput 1 "42").2.2,
   by decide⟩

/-- C6: the finite-arity half of the claim holds on the code (a call
exceeding arity 2 is rejected with the arity error and binds nothing), but
the unbounded half fails: evaluation at the failing input shows an
under-filled addInput on an unbounded-arity chain raising the
unbound-logger ReferenceError instead of succeeding. -/
theorem addInputs_unbounded_underfill_raises :
    (overlayChain.addInputs
        [.specifier specZeroV, .specifier specZero, .specifier specZeroV]
      = Except.error "Too many inputs specified: 2 inputs required") ∧
    amixChain.inputPads.any (fun p => p == "N") = true ∧
    amixChain.addInput (.specifier specZeroV)
      = Except.error "ReferenceError: logger is not defined" := by decide

/-- C7: evaluation of the code at the failing input: adding one valid
specifier to a chain whose first node declares input arity 2 reaches the
under-filled warning branch, which raises the unbound-logger
ReferenceError instead of appending the specifier and merely warning. -/
theorem addInput_underfill_raises_reference_error :
    overlayChain.addInput (.specifier specZeroV)
      = Except.error "ReferenceError: logger is not defined" := by decide

/-- C8: FilterChain.toString emits each bound input through bracketWrap;
bracketWrap keeps already-bracketed text unchanged, wraps unbracketed text
in exactly one bracket pair, and is idempotent. -/
theorem bracketWrap_once_and_idempotent (c : FilterChain) (s : List Char) :
    FilterChain.toString c
      = (c.inputs.map fun i => bracketWrap i.rendered).flatten
        ++ c.renderedFilters ++ c.renderedOutputs ∧
    (jsStartsWith s ['['] = true → jsEndsWith s [']'] = true → bracketWrap s = s) ∧
    ((jsStartsWith s ['['] && jsEndsWith s [']']) = false →
      bracketWrap s = '[' :: s ++ [']']) ∧
    bracketWrap (bracketWrap s) = bracketWrap s := by
  refine ⟨rfl, ?_, ?_, ?_⟩
  · intro h1 h2
    simp [bracketWrap, h1, h2]
  · intro h
    simp [bracketWrap, h]
  · by_cases h : (jsStartsWith s ['['] && jsEndsWith s [']']) = true
    · have hb : bracketWrap s = s := by simp [bracketWrap, h]
      rw [hb]
      exact hb
    · have hb : bracketWrap s = '[' :: s ++ [']'] := by
        simp only [bracketWrap, Bool.not_eq_true] at h ⊢
        simp [h]
      rw [hb]
      have h2 : jsEndsWith ('[' :: s ++ [']']) [']'] = true := by
        have hx := jsEndsWith_bracket ('[' :: s)
        simpa using hx
      exact bracketWrap_of_bracketed (jsStartsWith_bracket _) h2

/-- C8 witness: the theorem applied at the edgedetect chain, at an
unbracketed and at a bracketed specifier text. -/
theorem bracketWrap_once_and_idempotent_witness :
    bracketWrap ("0:v".data) = '[' :: "0:v".data ++ [']'] ∧
    bracketWrap ("[0:v]".data) = "[0:v]".data :=
  ⟨(bracketWrap_once_and_idempotent edgedetectChain ("0:v".data)).2.2.1 (by decide),
   (bracketWrap_once_and_idempotent edgedetectChain ("[0:v]".data)).2.1
     (by decide) (by decide)⟩

/-- C9: rendering is deterministic and read-only: toCommand and toString
return the command state unchanged, and rendering the returned state again
yields identical results. -/
theorem render_pure_and_deterministic (c : FFmpegCommand) :
    (c.toCommand).1 = c ∧
    ((c.toCommand).1.toCommand).2 = (c.toCommand).2 ∧
    (c.toString).1 = c ∧
    ((c.toString).1.toString).2 = (c.toString).2 :=
  ⟨rfl, rfl, rfl, rfl⟩

/-- C10: FilterChain.wrap wraps a FilterNode in a newly constructed
one-node FilterChain with an empty bound-input list, and returns any
argument that is not a FilterNode unchanged. -/
theorem wrap_node_or_identity (n : FilterNode) (x : WrapArg) :
    FilterChain.wrap (.node n) = Except.ok (.chain { nodes := [n], inputs := [] }) ∧
    ((∀ m, x ≠ WrapArg.node m) → FilterChain.wrap x = Except.ok x) := by
  constructor
  · rfl
  · intro h
    cases x with
    | node m => exact absurd rfl (h m)
    | chain c => rfl
    | otherVal t => rfl

/-- C10 witness: the theorem applied at the edgedetect node and at a
non-node argument. -/
theorem wrap_node_or_identity_witness :
    FilterChain.wrap (.node edgedetectNode)
      = Except.ok (.chain { nodes := [edgedetectNode], inputs := [] }) ∧
    FilterChain.wrap (.otherVal "out.mp4") = Except.ok (.otherVal "out.mp4") :=
  ⟨(wrap_node_or_identity edgedetectNode (.otherVal "out.mp4")).1,
   (wrap_node_or_identity edgedetectNode (.otherVal "out.mp4")).2 (fun _ h => nomatch h)⟩
